import Mathlib

/-!
Shallow embedding of the Elasticsearch foreign data wrapper core
(`pg_es/__init__.py`, class `ElasticsearchFDW`).

Modelling conventions:
* Python dicts built from pair lists are modelled as association lists
  (`Dict`); `dict(pairs)` lets a later pair overwrite an earlier one, so the
  lookup `dictGet` gives the *last* matching entry.
* The Elasticsearch client is an external collaborator; each public
  operation takes the backend's answer as an `Except String α` argument
  (`.error e` models the backend call raising exception `e`, which the
  Python code catches with `except Exception`).  The call the operation
  issues is recorded in the output so that claims about scope/filtering and
  about "no backend call was made" are expressible.
* `log_to_postgres` is fire-and-forget; the log entries emitted during one
  operation are returned as a list.
* `options.get('query_column', None)` yields `None` or a string; the code
  only ever tests it for Python truthiness (`if not self.query_column`) and
  uses it as a dict key when truthy, so `None` and `""` are observationally
  equivalent; `query_column` is modelled as a `String` with `""` = unset.
* The translated query is `None` or a qualifier's string value; `if query:`
  is Python truthiness on an optional string, modelled by `queryPresent`.
* Python's `str(...)` rendering of values/dicts inside log messages is
  abstracted by `renderValue`/`renderDict`; no claim depends on it.
-/

namespace PgEs

/-- A JSON-ish document field value. -/
inductive Value where
  | null : Value
  | bool : Bool → Value
  | num : Int → Value
  | str : String → Value
deriving DecidableEq, Repr

/-- A Python dict with string keys, as an association list. -/
abbrev Dict := List (String × Value)

/-- Python `key in d`. -/
def containsKey (d : Dict) (key : String) : Bool :=
  d.any (fun p => p.1 == key)

/-- Python `d[key]` for a dict built from a pair list: the last pair with
this key wins (later pairs overwrite earlier ones in `dict(...)`). -/
def dictGet : Dict → String → Option Value
  | [], _ => none
  | (k, v) :: rest, key =>
    match dictGet rest key with
    | some v' => some v'
    | none => if k == key then some v else none

/-- Python `d.pop(key, None)`'s effect on the dict: every pair with this
key is removed. -/
def dictPop (d : Dict) (key : String) : Dict :=
  d.filter (fun p => p.1 != key)

/-- The keys of a row, as produced by the row mapper. -/
def rowKeys (row : Dict) : List String :=
  row.map Prod.fst

/-- One relational predicate handed down by the executor; the layer only
reads `field_name` and `value`. -/
structure Qual where
  field_name : String
  value : String
deriving DecidableEq, Repr

/-- The per-table configuration established in `__init__`:
`index`, `doc_type`, `query_column` (`""` = unset), `rowid_column`.
The connection options (`host`, `port`) belong to the external client. -/
structure Config where
  index : String
  doc_type : String
  query_column : String
  rowid_column : String
deriving DecidableEq, Repr

/-- One Elasticsearch hit: `row_data['_id']` and `row_data['_source']`. -/
structure Doc where
  docId : Value
  source : Dict
deriving DecidableEq, Repr

/-- Severity passed to `log_to_postgres`; the wrapper only uses `ERROR`. -/
inductive LogLevel where
  | error : LogLevel
  | warning : LogLevel
deriving DecidableEq, Repr

/-- One `log_to_postgres(message, level)` call. -/
structure LogEntry where
  msg : String
  level : LogLevel
deriving DecidableEq, Repr

/-- Python truthiness of the optional query string: `None` and `''` are
falsy, any other string truthy. -/
def queryPresent : Option String → Bool
  | none => false
  | some s => s != ""

/-- Embedding of `_get_query`: `None` when `query_column` is unset, otherwise
the value of the first qualifier whose `field_name` equals `query_column`
(`next` over a filtering generator, default `None`). -/
def get_query (cfg : Config) (quals : List Qual) : Option String :=
  if cfg.query_column == "" then none
  else (quals.find? (fun q => q.field_name == cfg.query_column)).map Qual.value

/-- Embedding of `_convert_response_column`: the rowid column is served from
`row_data['_id']`, anything else from `row_data['_source'][column]`.  The
caller's guard ensures the source lookup succeeds, so the `Value.null`
default is never reached on guarded calls. -/
def convert_response_column (cfg : Config) (column : String) (row_data : Doc) : Value :=
  if column == cfg.rowid_column then row_data.docId
  else (dictGet row_data.source column).getD Value.null

/-- Embedding of `_convert_response_row`: keep each requested column that is
in `_source` or equals the rowid column; when the query is truthy, append the
`(query_column, query)` pair, which overwrites in `dict(... + ...)`. -/
def convert_response_row (cfg : Config) (row_data : Doc) (columns : List String)
    (query : Option String) : Dict :=
  let base := (columns.filter (fun column =>
      containsKey row_data.source column || column == cfg.rowid_column)).map
      (fun column => (column, convert_response_column cfg column row_data))
  if queryPresent query then
    base ++ [(cfg.query_column, Value.str (query.getD ""))]
  else
    base

/-- Embedding of `_convert_response`: map the row converter over
`data['hits']['hits']`. -/
def convert_response (cfg : Config) (hits : List Doc) (columns : List String)
    (query : Option String) : List Dict :=
  hits.map (fun row_data => convert_response_row cfg row_data columns query)

/-- Rendering of a value inside a log message (abstraction of Python
`str`). -/
def renderValue : Value → String
  | .null => "None"
  | .bool b => toString b
  | .num n => toString n
  | .str s => s

/-- Rendering of a dict inside a log message (abstraction of Python
`str`). -/
def renderDict (d : Dict) : String :=
  String.intercalate (", ") (d.map (fun p => p.1 ++ (": ") ++ renderValue p.2))

/-- Message `"COUNT for /{index}/{doc_type} failed: {exception}"`. -/
def countFailMsg (cfg : Config) (e : String) : String :=
  "COUNT for /" ++ cfg.index ++ "/" ++ cfg.doc_type ++ " failed: " ++ e

/-- Message `"SEARCH for /{index}/{doc_type} failed: {exception}"`. -/
def searchFailMsg (cfg : Config) (e : String) : String :=
  "SEARCH for /" ++ cfg.index ++ "/" ++ cfg.doc_type ++ " failed: " ++ e

/-- Message `'INSERT requires "{rowid}" column. Missing in: {values}'`. -/
def insertMissingMsg (cfg : Config) (values : Dict) : String :=
  "INSERT requires \"" ++ cfg.rowid_column ++ "\" column. Missing in: " ++ renderDict values

/-- Message `"INDEX for /{index}/{doc_type}/{document_id} and document
{document} failed: {exception}"`. -/
def indexFailMsg (cfg : Config) (document_id : Value) (document : Dict) (e : String) : String :=
  "INDEX for /" ++ cfg.index ++ "/" ++ cfg.doc_type ++ "/" ++ renderValue document_id ++
    " and document " ++ renderDict document ++ " failed: " ++ e

/-- Message `"DELETE for /{index}/{doc_type}/{document_id} failed:
{exception}"`. -/
def deleteFailMsg (cfg : Config) (document_id : Value) (e : String) : String :=
  "DELETE for /" ++ cfg.index ++ "/" ++ cfg.doc_type ++ "/" ++ renderValue document_id ++
    " failed: " ++ e

/-- The count request `get_rel_size` issues: scope plus the optional `q=`
parameter. -/
structure CountCall where
  index : String
  doc_type : String
  q : Option String
deriving DecidableEq, Repr

/-- Output of `get_rel_size`: the `(rows, width)` pair, the log entries
emitted, and the count call that was issued. -/
structure RelSizeOut where
  result : Nat × Nat
  logs : List LogEntry
  call : CountCall
deriving DecidableEq, Repr

/-- Embedding of `get_rel_size`: count scoped to `index`/`doc_type`, with
`q=query` exactly when the translated query is truthy;
`(count, len(columns)*100)` on success, `(0, 0)` plus one ERROR log if the
backend call raises. -/
def get_rel_size (cfg : Config) (quals : List Qual) (columns : List String)
    (resp : Except String Nat) : RelSizeOut :=
  let query := get_query cfg quals
  let call : CountCall :=
    if queryPresent query then ⟨cfg.index, cfg.doc_type, query⟩
    else ⟨cfg.index, cfg.doc_type, none⟩
  match resp with
  | .ok n => ⟨(n, columns.length * 100), [], call⟩
  | .error e => ⟨(0, 0), [⟨countFailMsg cfg e, .error⟩], call⟩

/-- What `execute` returns: a list of rows on success, or — in the
exception handler — the pair `(0, 0)` (a Python tuple of two ints, not a
row list). -/
inductive ExecResult where
  | rows : List Dict → ExecResult
  | pair : Nat → Nat → ExecResult
deriving DecidableEq, Repr

/-- Output of `execute`: result and emitted log entries. -/
structure ExecOut where
  result : ExecResult
  logs : List LogEntry
deriving DecidableEq, Repr

/-- Embedding of `execute`: search scoped to `index`/`doc_type` (filtered by
the translated query when truthy), rows via `_convert_response`; if the
backend call raises, one ERROR log and the literal return value `(0, 0)`. -/
def execute (cfg : Config) (quals : List Qual) (columns : List String)
    (resp : Except String (List Doc)) : ExecOut :=
  let query := get_query cfg quals
  match resp with
  | .ok hits => ⟨.rows (convert_response cfg hits columns query), []⟩
  | .error e => ⟨.pair 0 0, [⟨searchFailMsg cfg e, .error⟩]⟩

/-- The index (write) request sent by `insert`/`update`. -/
structure IndexCall where
  index : String
  doc_type : String
  id : Value
  body : Dict
deriving DecidableEq, Repr

/-- What a mutation returns: the backend acknowledgement, or the `(0, 0)`
pair from an error path. -/
inductive MutResult where
  | resp : Value → MutResult
  | pair : Nat → Nat → MutResult
deriving DecidableEq, Repr

/-- Output of `insert`/`update`: result, log entries, the index call that
was issued (`none` = the backend was never contacted), and the final state
of the caller's `new_values` dict (mutated in place by `pop`). -/
structure MutOut where
  result : MutResult
  logs : List LogEntry
  call : Option IndexCall
  new_values : Dict
deriving DecidableEq, Repr

/-- Embedding of `insert`: missing rowid key means one ERROR log, no backend
call, `(0, 0)`; otherwise pop the rowid value as the document id, index the
remaining fields, and return the acknowledgement, or `(0, 0)` plus one ERROR
log if the call raises. -/
def insert (cfg : Config) (new_values : Dict) (resp : Except String Value) : MutOut :=
  if containsKey new_values cfg.rowid_column then
    let document_id := (dictGet new_values cfg.rowid_column).getD Value.null
    let body := dictPop new_values cfg.rowid_column
    match resp with
    | .ok r => ⟨.resp r, [], some ⟨cfg.index, cfg.doc_type, document_id, body⟩, body⟩
    | .error e =>
      ⟨.pair 0 0, [⟨indexFailMsg cfg document_id body e, .error⟩],
        some ⟨cfg.index, cfg.doc_type, document_id, body⟩, body⟩
  else
    ⟨.pair 0 0, [⟨insertMissingMsg cfg new_values, .error⟩], none, new_values⟩

/-- Embedding of `update`: pop any rowid key from `new_values`, then index
the remaining fields at `document_id`; `(0, 0)` plus one ERROR log if the
call raises. -/
def update (cfg : Config) (document_id : Value) (new_values : Dict)
    (resp : Except String Value) : MutOut :=
  let body := dictPop new_values cfg.rowid_column
  match resp with
  | .ok r => ⟨.resp r, [], some ⟨cfg.index, cfg.doc_type, document_id, body⟩, body⟩
  | .error e =>
    ⟨.pair 0 0, [⟨indexFailMsg cfg document_id body e, .error⟩],
      some ⟨cfg.index, cfg.doc_type, document_id, body⟩, body⟩

/-- Output of `delete`: result and emitted log entries. -/
structure DeleteOut where
  result : MutResult
  logs : List LogEntry
deriving DecidableEq, Repr

/-- Embedding of `delete`: delete the document at `document_id`; `(0, 0)`
plus one ERROR log if the call raises. -/
def delete (cfg : Config) (document_id : Value) (resp : Except String Value) : DeleteOut :=
  match resp with
  | .ok r => ⟨.resp r, []⟩
  | .error e => ⟨.pair 0 0, [⟨deleteFailMsg cfg document_id e, .error⟩]⟩

end PgEs

namespace PgEs

theorem dictGet_append_last (l : Dict) (k : String) (v : Value) :
    dictGet (l ++ [(k, v)]) k = some v := by
  induction l with
  | nil => simp [dictGet]
  | cons p rest ih => cases p; simp [dictGet, ih]

theorem dictGet_append_ne (l : Dict) (k k' : String) (v : Value) (h : k' ≠ k) :
    dictGet (l ++ [(k', v)]) k = dictGet l k := by
  induction l with
  | nil => simp [dictGet, h]
  | cons p rest ih => cases p; simp [dictGet, ih]

theorem dictGet_map_not_mem (xs : List String) (f : String → Value) (k : String)
    (h : k ∉ xs) : dictGet (xs.map (fun c => (c, f c))) k = none := by
  induction xs with
  | nil => rfl
  | cons a rest ih =>
    simp only [List.mem_cons, not_or] at h
    simp [dictGet, ih h.2, Ne.symm h.1]

theorem dictGet_map_mem (xs : List String) (f : String → Value) (k : String)
    (h : k ∈ xs) : dictGet (xs.map (fun c => (c, f c))) k = some (f k) := by
  induction xs with
  | nil => cases h
  | cons a rest ih =>
    by_cases hk : k ∈ rest
    · simp [dictGet, ih hk]
    · have hka : k = a := by
        rcases List.mem_cons.mp h with h1 | h2
        · exact h1
        · exact absurd h2 hk
      subst hka
      simp [dictGet, dictGet_map_not_mem rest f k hk]

theorem rowKeys_map_pair (xs : List String) (f : String → Value) :
    rowKeys (xs.map (fun c => (c, f c))) = xs := by
  induction xs with
  | nil => rfl
  | cons a rest ih =>
    simp only [rowKeys, List.map_cons] at ih ⊢
    rw [ih]

theorem mem_rowKeys_append (l₁ l₂ : Dict) (k : String) :
    k ∈ rowKeys (l₁ ++ l₂) ↔ k ∈ rowKeys l₁ ∨ k ∈ rowKeys l₂ := by
  simp [rowKeys]

theorem containsKey_dictPop (d : Dict) (k : String) :
    containsKey (dictPop d k) k = false := by
  simp [containsKey, dictPop]

theorem find_first (p : Qual → Bool) (pre post : List Qual) (x : Qual)
    (hpre : ∀ a ∈ pre, p a = false) (hx : p x = true) :
    (pre ++ x :: post).find? p = some x := by
  induction pre with
  | nil => simp [List.find?, hx]
  | cons a rest ih =>
    have ha := hpre a (List.mem_cons_self a rest)
    simp only [List.cons_append, List.find?, ha]
    exact ih (fun b hb => hpre b (List.mem_cons_of_mem a hb))

/-- Claim C4: if the query column is unset, `_get_query` returns absent; if it
is set and no qualifier's field name equals it, `_get_query` returns absent;
and if at least one qualifier matches, `_get_query` returns the value of the
first matching qualifier in input order, regardless of later matches. -/
theorem c4_extract_query_first_match (cfg : Config) (quals pre post : List Qual) (q : Qual) :
    (cfg.query_column = "" → get_query cfg quals = none) ∧
    ((∀ p ∈ quals, p.field_name ≠ cfg.query_column) → get_query cfg quals = none) ∧
    (cfg.query_column ≠ "" → (∀ p ∈ pre, p.field_name ≠ cfg.query_column) →
      q.field_name = cfg.query_column →
      get_query cfg (pre ++ q :: post) = some q.value) := by
  refine ⟨?_, ?_, ?_⟩
  · intro h
    simp [get_query, h]
  · intro h
    unfold get_query
    by_cases hqc : cfg.query_column == ""
    · simp [hqc]
    · rw [if_neg hqc]
      have : quals.find? (fun p => p.field_name == cfg.query_column) = none := by
        rw [List.find?_eq_none]
        intro p hp
        simpa using h p hp
      rw [this]
      rfl
  · intro hqc hpre hq
    unfold get_query
    rw [if_neg (by simpa using hqc)]
    rw [find_first (fun p => p.field_name == cfg.query_column) pre post q
      (fun a ha => by simpa using hpre a ha) (by simpa using hq)]
    rfl

/-- Witness for C4: the three branches at concrete inputs — unset query
column, set but unmatched, and first-of-two matches wins. -/
theorem c4_extract_query_first_match_witness :
    get_query ⟨("i"), ("t"), (""), ("id")⟩ [⟨("q"), ("v")⟩] = none ∧
    get_query ⟨("i"), ("t"), ("q"), ("id")⟩ [⟨("a"), ("v")⟩] = none ∧
    get_query ⟨("i"), ("t"), ("q"), ("id")⟩
      ([⟨("a"), ("v0")⟩] ++ ⟨("q"), ("v1")⟩ :: [⟨("q"), ("v2")⟩]) = some ("v1") := by
  refine ⟨?_, ?_, ?_⟩
  · exact (c4_extract_query_first_match ⟨("i"), ("t"), (""), ("id")⟩
      [⟨("q"), ("v")⟩] [] [] ⟨("q"), ("v")⟩).1 rfl
  · exact (c4_extract_query_first_match ⟨("i"), ("t"), ("q"), ("id")⟩
      [⟨("a"), ("v")⟩] [] [] ⟨("a"), ("v")⟩).2.1 (by decide)
  · exact (c4_extract_query_first_match ⟨("i"), ("t"), ("q"), ("id")⟩ []
      [⟨("a"), ("v0")⟩] [⟨("q"), ("v2")⟩] ⟨("q"), ("v1")⟩).2.2 (by decide) (by decide) rfl

/-- Claim C3: when the translated query is present (pushdown occurred, so the
query string is truthy) and the query column is among the requested columns,
the produced row maps the query column to exactly the translated query
string, overriding any same-named `_source` field. -/
theorem c3_query_echo (cfg : Config) (row_data : Doc) (columns : List String) (s : String)
    (hs : s ≠ "") (_hmem : cfg.query_column ∈ columns) :
    dictGet (convert_response_row cfg row_data columns (some s)) cfg.query_column =
      some (Value.str s) := by
  have hp : queryPresent (some s) = true := by simp [queryPresent, hs]
  unfold convert_response_row
  rw [if_pos hp]
  exact dictGet_append_last _ _ _

/-- Witness for C3: the pushed-down query string overrides the stale value
that the document's `_source` holds under the query column's name. -/
theorem c3_query_echo_witness :
    dictGet (convert_response_row ⟨("logs"), ("entry"), ("q"), ("id")⟩
        ⟨Value.str ("7"), [(("q"), Value.str ("old"))]⟩ [("q")] (some ("status:500")))
      ("q") = some (Value.str ("status:500")) :=
  c3_query_echo ⟨("logs"), ("entry"), ("q"), ("id")⟩
    ⟨Value.str ("7"), [(("q"), Value.str ("old"))]⟩ [("q")] ("status:500")
    (by decide) (by decide)

/-- Counterexample to C1 as stated: with a translated query present and the
query column not among the requested columns, `_convert_response_row` still
emits the query column's key, so the row has a key outside the requested
set. -/
theorem c1_counterexample :
    ¬ (∀ k ∈ rowKeys (convert_response_row ⟨("logs"), ("entry"), ("q"), ("id")⟩
        ⟨Value.str ("7"), [(("msg"), Value.str ("boom"))]⟩ [("msg")] (some ("x"))),
        k ∈ [("msg")]) := by
  decide

/-- Claim C1 (amended): every key of the produced row is a requested column,
except that when the translated query is truthy the query column's key may
additionally appear (the forced echo pair appended by the mapper). -/
theorem c1_row_keys_subset (cfg : Config) (row_data : Doc) (columns : List String)
    (query : Option String) (k : String)
    (hk : k ∈ rowKeys (convert_response_row cfg row_data columns query)) :
    k ∈ columns ∨ (queryPresent query = true ∧ k = cfg.query_column) := by
  unfold convert_response_row at hk
  by_cases hq : queryPresent query = true
  · rw [if_pos hq] at hk
    rcases (mem_rowKeys_append _ _ _).mp hk with h1 | h2
    · left
      rw [rowKeys_map_pair] at h1
      exact (List.mem_filter.mp h1).1
    · right
      refine ⟨hq, ?_⟩
      simpa [rowKeys] using h2
  · rw [if_neg hq] at hk
    left
    rw [rowKeys_map_pair] at hk
    exact (List.mem_filter.mp hk).1

/-- Witness for C1 (amended): at a concrete configuration the echoed query
column key is accounted for by the right disjunct. -/
theorem c1_row_keys_subset_witness :
    ("q") ∈ [("msg")] ∨ (queryPresent (some ("x")) = true ∧ ("q") = ("q")) :=
  c1_row_keys_subset ⟨("logs"), ("entry"), ("q"), ("id")⟩
    ⟨Value.str ("7"), [(("msg"), Value.str ("boom"))]⟩ [("msg")] (some ("x")) ("q")
    (by decide)

/-- Counterexample to C2 as stated: a row produced by the Row Source for a
requested column set that omits the rowid column does not contain the rowid
column at all. -/
theorem c2_counterexample :
    execute ⟨("logs"), ("entry"), (""), ("id")⟩ [] [("msg")]
        (Except.ok [⟨Value.str ("7"),
          [(("msg"), Value.str ("boom")), (("id"), Value.str ("999"))]⟩]) =
      ⟨.rows [[(("msg"), Value.str ("boom"))]], []⟩ ∧
    dictGet [(("msg"), Value.str ("boom"))] ("id") = none := by
  decide

/-- Claim C2 (amended): whenever the rowid column is among the requested
columns, and is not simultaneously overwritten by the query echo (query
truthy with query column equal to the rowid column), the produced row maps
the rowid column to the document identifier `_id`, even when `_source` holds
a same-named field with a different value. -/
theorem c2_rowid_from_identifier (cfg : Config) (row_data : Doc) (columns : List String)
    (query : Option String) (hmem : cfg.rowid_column ∈ columns)
    (hq : queryPresent query = true → cfg.query_column ≠ cfg.rowid_column) :
    dictGet (convert_response_row cfg row_data columns query) cfg.rowid_column =
      some row_data.docId := by
  have hfilter : cfg.rowid_column ∈ columns.filter (fun column =>
      containsKey row_data.source column || column == cfg.rowid_column) := by
    refine List.mem_filter.mpr ⟨hmem, ?_⟩
    simp
  have hbase : dictGet ((columns.filter (fun column =>
      containsKey row_data.source column || column == cfg.rowid_column)).map
      (fun column => (column, convert_response_column cfg column row_data)))
      cfg.rowid_column = some (convert_response_column cfg cfg.rowid_column row_data) :=
    dictGet_map_mem _ _ _ hfilter
  have hcol : convert_response_column cfg cfg.rowid_column row_data = row_data.docId := by
    simp [convert_response_column]
  unfold convert_response_row
  by_cases hqp : queryPresent query = true
  · rw [if_pos hqp, dictGet_append_ne _ _ _ _ (hq hqp), hbase, hcol]
  · rw [if_neg hqp, hbase, hcol]

/-- Witness for C2 (amended): the identifier wins over a same-named,
different-valued `_source` field when the rowid column is requested. -/
theorem c2_rowid_from_identifier_witness :
    dictGet (convert_response_row ⟨("logs"), ("entry"), ("q"), ("id")⟩
        ⟨Value.str ("7"), [(("id"), Value.str ("999"))]⟩ [("id")] none) ("id") =
      some (Value.str ("7")) :=
  c2_rowid_from_identifier ⟨("logs"), ("entry"), ("q"), ("id")⟩
    ⟨Value.str ("7"), [(("id"), Value.str ("999"))]⟩ [("id")] none
    (by decide) (by decide)

/-- Claim C5 (code bug evidence): with a raising backend, `get_rel_size`,
`insert`, `update` and `delete` each return the degenerate `(0, 0)` with
exactly one ERROR log (nothing raises past the boundary, by construction of
the total embedding), but `execute` returns the integer pair `(0, 0)` — not
the empty row list that is its documented degenerate result. -/
theorem c5_backend_failure_eval :
    (get_rel_size ⟨("logs"), ("entry"), ("q"), ("id")⟩ [] [("msg")]
      (Except.error ("boom"))).result = (0, 0) ∧
    ((get_rel_size ⟨("logs"), ("entry"), ("q"), ("id")⟩ [] [("msg")]
      (Except.error ("boom"))).logs.map LogEntry.level = [LogLevel.error]) ∧
    (insert ⟨("logs"), ("entry"), ("q"), ("id")⟩
      [(("id"), Value.str ("1")), (("msg"), Value.str ("hi"))]
      (Except.error ("boom"))).result = MutResult.pair 0 0 ∧
    ((insert ⟨("logs"), ("entry"), ("q"), ("id")⟩
      [(("id"), Value.str ("1")), (("msg"), Value.str ("hi"))]
      (Except.error ("boom"))).logs.map LogEntry.level = [LogLevel.error]) ∧
    (update ⟨("logs"), ("entry"), ("q"), ("id")⟩ (Value.str ("1"))
      [(("msg"), Value.str ("hi"))] (Except.error ("boom"))).result = MutResult.pair 0 0 ∧
    ((update ⟨("logs"), ("entry"), ("q"), ("id")⟩ (Value.str ("1"))
      [(("msg"), Value.str ("hi"))] (Except.error ("boom"))).logs.map LogEntry.level =
      [LogLevel.error]) ∧
    (delete ⟨("logs"), ("entry"), ("q"), ("id")⟩ (Value.str ("1"))
      (Except.error ("boom"))).result = MutResult.pair 0 0 ∧
    ((delete ⟨("logs"), ("entry"), ("q"), ("id")⟩ (Value.str ("1"))
      (Except.error ("boom"))).logs.map LogEntry.level = [LogLevel.error]) ∧
    (execute ⟨("logs"), ("entry"), ("q"), ("id")⟩ [] [("msg")]
      (Except.error ("boom"))).result = ExecResult.pair 0 0 ∧
    ((execute ⟨("logs"), ("entry"), ("q"), ("id")⟩ [] [("msg")]
      (Except.error ("boom"))).logs.map LogEntry.level = [LogLevel.error]) ∧
    ExecResult.pair 0 0 ≠ ExecResult.rows [] := by
  decide

/-- Claim C6 (code bug evidence): on backend failure `execute` emits exactly
one ERROR log whose message names the index, the doc type and the underlying
error, but its return value is the integer pair `(0, 0)` — a two-element
tuple of ints, not a result containing zero rows. -/
theorem c6_execute_failure_eval :
    execute ⟨("logs"), ("entry"), ("q"), ("id")⟩ [] [("msg")]
        (Except.error ("conn refused")) =
      ⟨ExecResult.pair 0 0,
        [⟨("SEARCH for /logs/entry failed: conn refused"), LogLevel.error⟩]⟩ ∧
    ExecResult.pair 0 0 ≠ ExecResult.rows [] := by
  decide

/-- Claim C7: when `new_values` lacks the rowid column key, `insert` returns
the zero-effect pair `(0, 0)`, issues no backend call at all, and logs exactly
one ERROR entry. -/
theorem c7_insert_missing_rowid (cfg : Config) (new_values : Dict)
    (resp : Except String Value)
    (h : containsKey new_values cfg.rowid_column = false) :
    (insert cfg new_values resp).result = MutResult.pair 0 0 ∧
    (insert cfg new_values resp).call = none ∧
    (insert cfg new_values resp).logs.map LogEntry.level = [LogLevel.error] := by
  unfold insert
  simp [h]

/-- Witness for C7: inserting a mapping without the `"id"` key. -/
theorem c7_insert_missing_rowid_witness :
    (insert ⟨("logs"), ("entry"), ("q"), ("id")⟩ [(("msg"), Value.str ("hi"))]
      (Except.ok Value.null)).result = MutResult.pair 0 0 ∧
    (insert ⟨("logs"), ("entry"), ("q"), ("id")⟩ [(("msg"), Value.str ("hi"))]
      (Except.ok Value.null)).call = none ∧
    (insert ⟨("logs"), ("entry"), ("q"), ("id")⟩ [(("msg"), Value.str ("hi"))]
      (Except.ok Value.null)).logs.map LogEntry.level = [LogLevel.error] :=
  c7_insert_missing_rowid ⟨("logs"), ("entry"), ("q"), ("id")⟩
    [(("msg"), Value.str ("hi"))] (Except.ok Value.null) (by decide)

/-- Claim C8: whatever index request `insert` (rowid present or not) or
`update` sends to the backend, its document body never contains the rowid
column key — insert pops the rowid value into the document id, update strips
it defensively. -/
theorem c8_body_never_contains_rowid (cfg : Config) (new_values : Dict)
    (document_id : Value) (resp : Except String Value) (c : IndexCall) :
    ((insert cfg new_values resp).call = some c →
      containsKey c.body cfg.rowid_column = false) ∧
    ((update cfg document_id new_values resp).call = some c →
      containsKey c.body cfg.rowid_column = false) := by
  constructor
  · intro hc
    unfold insert at hc
    by_cases h : containsKey new_values cfg.rowid_column
    · rw [if_pos h] at hc
      cases resp with
      | ok r =>
        simp only [Option.some.injEq] at hc
        rw [← hc]
        exact containsKey_dictPop _ _
      | error e =>
        simp only [Option.some.injEq] at hc
        rw [← hc]
        exact containsKey_dictPop _ _
    · rw [if_neg h] at hc
      simp at hc
  · intro hc
    unfold update at hc
    cases resp with
    | ok r =>
      simp only [Option.some.injEq] at hc
      rw [← hc]
      exact containsKey_dictPop _ _
    | error e =>
      simp only [Option.some.injEq] at hc
      rw [← hc]
      exact containsKey_dictPop _ _

/-- Witness for C8: a concrete insert and a concrete update, both of whose
index-call bodies lack the `"id"` key. -/
theorem c8_body_never_contains_rowid_witness :
    containsKey (IndexCall.mk ("logs") ("entry") (Value.str ("1"))
      [(("msg"), Value.str ("hi"))]).body ("id") = false ∧
    containsKey (IndexCall.mk ("logs") ("entry") (Value.str ("2"))
      [(("msg"), Value.str ("ho"))]).body ("id") = false := by
  constructor
  · exact (c8_body_never_contains_rowid ⟨("logs"), ("entry"), ("q"), ("id")⟩
      [(("id"), Value.str ("1")), (("msg"), Value.str ("hi"))] (Value.str ("1"))
      (Except.ok Value.null)
      ⟨("logs"), ("entry"), Value.str ("1"), [(("msg"), Value.str ("hi"))]⟩).1 (by decide)
  · exact (c8_body_never_contains_rowid ⟨("logs"), ("entry"), ("q"), ("id")⟩
      [(("id"), Value.str ("2")), (("msg"), Value.str ("ho"))] (Value.str ("2"))
      (Except.ok Value.null)
      ⟨("logs"), ("entry"), Value.str ("2"), [(("msg"), Value.str ("ho"))]⟩).2 (by decide)

/-- Claim C9: on backend success, `get_rel_size` returns the pair
`(backend count, len(columns) * 100)` with no log entry, and the count call
it issues is scoped to the configured index and doc type and carries the
translated query exactly when one is present (truthy). -/
theorem c9_get_rel_size_success (cfg : Config) (quals : List Qual)
    (columns : List String) (n : Nat) :
    (get_rel_size cfg quals columns (Except.ok n)).result =
      (n, columns.length * 100) ∧
    (get_rel_size cfg quals columns (Except.ok n)).logs = [] ∧
    (get_rel_size cfg quals columns (Except.ok n)).call.index = cfg.index ∧
    (get_rel_size cfg quals columns (Except.ok n)).call.doc_type = cfg.doc_type ∧
    (queryPresent (get_query cfg quals) = true →
      (get_rel_size cfg quals columns (Except.ok n)).call.q = get_query cfg quals) ∧
    (queryPresent (get_query cfg quals) = false →
      (get_rel_size cfg quals columns (Except.ok n)).call.q = none) := by
  unfold get_rel_size
  by_cases h : queryPresent (get_query cfg quals) = true <;> simp [h]

/-- Witness for C9: a matching qualifier makes the count call carry the
query; without qualifiers the call is unfiltered. -/
theorem c9_get_rel_size_success_witness :
    (get_rel_size ⟨("logs"), ("entry"), ("q"), ("id")⟩ [⟨("q"), ("status:500")⟩]
      [("id"), ("q"), ("msg")] (Except.ok 5)).result = (5, 300) ∧
    (get_rel_size ⟨("logs"), ("entry"), ("q"), ("id")⟩ [⟨("q"), ("status:500")⟩]
      [("id"), ("q"), ("msg")] (Except.ok 5)).call.q = some ("status:500") ∧
    (get_rel_size ⟨("logs"), ("entry"), ("q"), ("id")⟩ []
      [("msg")] (Except.ok 5)).call.q = none := by
  refine ⟨?_, ?_, ?_⟩
  · exact (c9_get_rel_size_success ⟨("logs"), ("entry"), ("q"), ("id")⟩
      [⟨("q"), ("status:500")⟩] [("id"), ("q"), ("msg")] 5).1
  · exact (c9_get_rel_size_success ⟨("logs"), ("entry"), ("q"), ("id")⟩
      [⟨("q"), ("status:500")⟩] [("id"), ("q"), ("msg")] 5).2.2.2.2.1 (by decide)
  · exact (c9_get_rel_size_success ⟨("logs"), ("entry"), ("q"), ("id")⟩
      [] [("msg")] 5).2.2.2.2.2 (by decide)

/-- Claim C10: the `pop` in `insert` and `update` acts on the caller's
`new_values` mapping itself (its post-state is returned by the embedding);
after either operation returns — success, backend failure, or missing rowid —
that mapping no longer contains the rowid column key. -/
theorem c10_new_values_stripped (cfg : Config) (new_values : Dict)
    (document_id : Value) (resp resp' : Except String Value) :
    containsKey (insert cfg new_values resp).new_values cfg.rowid_column = false ∧
    containsKey (update cfg document_id new_values resp').new_values
      cfg.rowid_column = false := by
  constructor
  · unfold insert
    by_cases h : containsKey new_values cfg.rowid_column
    · cases resp <;> simp [h, containsKey_dictPop]
    · simp only [Bool.not_eq_true] at h
      simp [h]
  · unfold update
    cases resp' <;> simp [containsKey_dictPop]
